import Mathlib

/-!
Shallow embedding of the Solterra browser front-end (an event-booking and
results-delivery platform for a mobile health-screening program).

Conventions used throughout this development:
* JavaScript strings are modelled as Lean `String`s; where character-level
  processing matters (the OTP input) the stored value is a `List Char`.
* JavaScript `Date` values that are only ever compared numerically are
  modelled as `Int` epoch timestamps.
* React component state is a record; every user interaction or network
  response that can change that state is an explicit action, and the
  component's event handlers become a step function `state → action → state`.
  A button that is not rendered, or is rendered `disabled`, cannot fire, so
  its guard appears as the condition of the corresponding branch.
* Network responses are modelled by the data the handler extracts from them
  (`Option` for success/failure).
-/

namespace Solterra

/-! ## Booking wizard — src/frontend/src/app/events/[id]/page.tsx -/

/-- `type BookingStep = 'details' | 'eligibility' | 'time-slot' | 'confirmation' | 'success'`. -/
inductive BookingStep
  | details
  | eligibility
  | timeSlot
  | confirmation
  | success
deriving DecidableEq, Repr

/-- `interface TimeSlot` (`end` is a Lean keyword, rendered `stop`). -/
structure TimeSlot where
  start : String
  stop : String
  slots : Int
  available : Int
deriving DecidableEq, Repr

/-- `interface EligibilityAnswers`: `boolean | null` fields become `Option Bool`. -/
structure EligibilityAnswers where
  age : Option Bool
  menstruating : Option Bool
  hysterectomy : Option Bool
  hpv_test : Option Bool
deriving DecidableEq, Repr

/-- The component state of `EventBookingPage` that the booking flow reads or
writes.  `hasToken` models whether `localStorage.getItem('access_token')`
returns a token; `availableSlots` is `event.available_slots`. -/
structure WizardState where
  currentStep : BookingStep
  hasTimeSlots : Bool
  timeSlots : List TimeSlot
  selectedTimeSlot : Option TimeSlot
  eligibility : EligibilityAnswers
  acceptedTerms : Bool
  isBooked : Bool
  userRole : Option String
  hasToken : Bool
  availableSlots : Int
  bookingReference : String
deriving DecidableEq, Repr

/-- `canProceedFromEligibility`: all four answers are non-null. -/
def canProceedFromEligibility (e : EligibilityAnswers) : Bool :=
  e.age.isSome && e.menstruating.isSome && e.hysterectomy.isSome && e.hpv_test.isSome

/-- `isEligible`: age in range, not menstruating, no hysterectomy, no recent HPV test. -/
def isEligible (e : EligibilityAnswers) : Bool :=
  e.age == some true && e.menstruating == some false &&
  e.hysterectomy == some false && e.hpv_test == some false

/-- The ineligibility note is rendered when `canProceedFromEligibility() && !isEligible()`. -/
def showsIneligibilityNote (e : EligibilityAnswers) : Bool :=
  canProceedFromEligibility e && !(isEligible e)

/-- The user interactions (and the backend outcomes they observe) that drive
the wizard.  `submitBooking ok ref` is a click on "Confirm Booking" whose
POST either succeeds (`ok = true`, returning booking reference `ref`) or
fails. -/
inductive WizardAction
  | continueDetails
  | setAge (b : Bool)
  | setMenstruating (b : Bool)
  | setHysterectomy (b : Bool)
  | setHpv (b : Bool)
  | backToDetails
  | continueEligibility
  | backToEligibility
  | selectTimeSlot (slot : TimeSlot)
  | continueTimeSlot
  | backFromConfirmation
  | setAcceptedTerms (b : Bool)
  | submitBooking (ok : Bool) (ref : String)
deriving DecidableEq, Repr

/-- One step of the wizard.  Each branch's condition is the conjunction of
the rendering guard and the `disabled` guard of the UI element that fires
the action; when the guard fails the element cannot fire and the state is
unchanged. -/
def wizardStep (s : WizardState) (a : WizardAction) : WizardState :=
  match a with
  | .continueDetails =>
      -- "Continue to Eligibility Check": rendered when participant, not yet
      -- booked, and `event.available_slots > 0`.
      if s.currentStep = .details ∧ s.userRole = some "participant" ∧
          s.isBooked = false ∧ 0 < s.availableSlots
      then { s with currentStep := .eligibility } else s
  | .setAge b =>
      if s.currentStep = .eligibility
      then { s with eligibility := { s.eligibility with age := some b } } else s
  | .setMenstruating b =>
      if s.currentStep = .eligibility
      then { s with eligibility := { s.eligibility with menstruating := some b } } else s
  | .setHysterectomy b =>
      if s.currentStep = .eligibility
      then { s with eligibility := { s.eligibility with hysterectomy := some b } } else s
  | .setHpv b =>
      if s.currentStep = .eligibility
      then { s with eligibility := { s.eligibility with hpv_test := some b } } else s
  | .backToDetails =>
      -- ChevronLeft on the eligibility step.
      if s.currentStep = .eligibility then { s with currentStep := .details } else s
  | .continueEligibility =>
      -- "Continue", `disabled={!canProceedFromEligibility()}`;
      -- `setCurrentStep(hasTimeSlots ? 'time-slot' : 'confirmation')`.
      if s.currentStep = .eligibility ∧ canProceedFromEligibility s.eligibility = true
      then { s with currentStep := if s.hasTimeSlots then .timeSlot else .confirmation }
      else s
  | .backToEligibility =>
      -- ChevronLeft on the time-slot step (step rendered only when
      -- `currentStep === 'time-slot' && hasTimeSlots`).
      if s.currentStep = .timeSlot ∧ s.hasTimeSlots = true
      then { s with currentStep := .eligibility } else s
  | .selectTimeSlot slot =>
      -- Slot buttons come from `timeSlots.map`; `disabled={isFull}` and
      -- `onClick={() => !isFull && setSelectedTimeSlot(slot)}` with
      -- `isFull = slot.available <= 0`.
      if s.currentStep = .timeSlot ∧ s.hasTimeSlots = true ∧
          slot ∈ s.timeSlots ∧ 0 < slot.available
      then { s with selectedTimeSlot := some slot } else s
  | .continueTimeSlot =>
      -- "Continue", `disabled={!selectedTimeSlot}`.
      if s.currentStep = .timeSlot ∧ s.hasTimeSlots = true ∧ s.selectedTimeSlot.isSome = true
      then { s with currentStep := .confirmation } else s
  | .backFromConfirmation =>
      -- ChevronLeft: `setCurrentStep(hasTimeSlots ? 'time-slot' : 'eligibility')`.
      if s.currentStep = .confirmation
      then { s with currentStep := if s.hasTimeSlots then .timeSlot else .eligibility }
      else s
  | .setAcceptedTerms b =>
      if s.currentStep = .confirmation then { s with acceptedTerms := b } else s
  | .submitBooking ok ref =>
      -- "Confirm Booking", `disabled={!acceptedTerms || bookingLoading}`;
      -- `handleBooking` returns early without a request when no token is
      -- stored; on a successful POST it sets the reference, `isBooked`,
      -- and `currentStep = 'success'`.
      if s.currentStep = .confirmation ∧ s.acceptedTerms = true
      then
        if s.hasToken ∧ ok = true
        then { s with currentStep := .success, isBooked := true, bookingReference := ref }
        else s
      else s

/-- Component state right after mount: `currentStep` starts at `'details'`,
no slot selected, all eligibility answers `null`, terms unchecked.
`hasTimeSlots` and `timeSlots` come from the time-slots response, `booked`
from `checkIfBooked`, and `role` from the decoded token (absent without a
token). -/
def initWizardState (tok : Bool) (role : Option String) (booked : Bool)
    (avail : Int) (hts : Bool) (slots : List TimeSlot) : WizardState :=
  { currentStep := .details
    hasTimeSlots := hts
    timeSlots := slots
    selectedTimeSlot := none
    eligibility := { age := none, menstruating := none, hysterectomy := none, hpv_test := none }
    acceptedTerms := false
    isBooked := booked
    userRole := if tok then role else none
    hasToken := tok
    availableSlots := avail
    bookingReference := "" }

/-- Run a sequence of wizard actions. -/
def runWizard (s : WizardState) (acts : List WizardAction) : WizardState :=
  acts.foldl wizardStep s

/-- The JSON body `handleBooking` POSTs to `/participant/bookings`. -/
structure BookingRequest where
  event_id : String
  time_slot_start : Option String
  time_slot_end : Option String
deriving DecidableEq, Repr

/-- `requestBody`: `{ event_id }`, plus the selected slot's bounds when
`hasTimeSlots && selectedTimeSlot`. -/
def mkBookingRequestBody (eventId : String) (s : WizardState) : BookingRequest :=
  match s.hasTimeSlots, s.selectedTimeSlot with
  | true, some t =>
      { event_id := eventId, time_slot_start := some t.start, time_slot_end := some t.stop }
  | _, _ => { event_id := eventId, time_slot_start := none, time_slot_end := none }

/-- The booking-creation request (if any) that action `a` taken in state `s`
sends: `handleBooking` runs only from the enabled "Confirm Booking" button
and only issues the POST when a token is stored. -/
def bookingRequestOf (eventId : String) (s : WizardState) (a : WizardAction) :
    Option BookingRequest :=
  match a with
  | .submitBooking _ _ =>
      if s.currentStep = .confirmation ∧ s.acceptedTerms = true ∧ s.hasToken = true
      then some (mkBookingRequestBody eventId s) else none
  | _ => none

/-- Position of a step in the spec's five-step sequence
`details → eligibility → time-slot → confirmation → success`. -/
def stepIdx : BookingStep → Nat
  | .details => 0
  | .eligibility => 1
  | .timeSlot => 2
  | .confirmation => 3
  | .success => 4

/-- Adjacency in the full five-step sequence. -/
def adjacentFull (a b : BookingStep) : Bool :=
  stepIdx a + 1 == stepIdx b || stepIdx b + 1 == stepIdx a

/-- Position in the effective sequence when the event has no time slots
(`details → eligibility → confirmation → success`; the time-slot step does
not occur). -/
def stepIdxNoSlots : BookingStep → Option Nat
  | .details => some 0
  | .eligibility => some 1
  | .timeSlot => none
  | .confirmation => some 2
  | .success => some 3

/-- Adjacency in the effective no-time-slot sequence. -/
def adjacentNoSlots (a b : BookingStep) : Bool :=
  match stepIdxNoSlots a, stepIdxNoSlots b with
  | some i, some j => i + 1 == j || j + 1 == i
  | _, _ => false

/-! ## Result view page — src/frontend/src/app/results/[id]/page.tsx -/

/-- `interface ResultDetail`. -/
structure ResultDetail where
  result_category : String
  result_notes : Option String
  result_file_url : Option String
  event_name : String
  event_date : String
deriving DecidableEq, Repr

/-- `useState<'request-otp' | 'view-result'>`. -/
inductive ResultStep
  | requestOtp
  | viewResult
deriving DecidableEq, Repr

/-- The component state of `ViewResultPage`.  The OTP input value is kept as
a character list so the digit filtering and length cap are explicit. -/
structure ResultPageState where
  step : ResultStep
  otp : List Char
  result : Option ResultDetail
  phoneNumber : String
deriving DecidableEq, Repr

/-- State on mount: `step = 'request-otp'`, empty OTP, `result = null`. -/
def initResultPageState : ResultPageState :=
  { step := .requestOtp, otp := [], result := none, phoneNumber := "" }

/-- Interactions on the result page.  `request resp` is a click on "Send
Verification Code" or "Resend code" whose POST to `request-otp` succeeds
with phone number `resp = some phone` or fails; `typeOtp input` is an edit of
the OTP field (`input` is the field value after the browser's `maxLength={6}`
cap); `verify resp` is a submit of the OTP form whose POST to `view`
succeeds with the result payload or fails. -/
inductive ResultAction
  | request (resp : Option String)
  | typeOtp (input : List Char)
  | verify (resp : Option ResultDetail)
deriving DecidableEq, Repr

/-- One step of the result page.  The whole OTP card (both sub-steps) is
rendered only while `!result`; the OTP form only in the `'view-result'`
sub-step; submitting is `disabled` unless `otp.length === 6`.  The input
handler stores `e.target.value.replace(/\D/g, '')`. -/
def resultPageStep (s : ResultPageState) (a : ResultAction) : ResultPageState :=
  match a with
  | .request resp =>
      if s.result = none then
        match resp with
        | some phone => { s with step := .viewResult, phoneNumber := phone }
        | none => s
      else s
  | .typeOtp input =>
      if s.result = none ∧ s.step = .viewResult
      then { s with otp := (input.take 6).filter Char.isDigit } else s
  | .verify resp =>
      if s.result = none ∧ s.step = .viewResult ∧ s.otp.length = 6 then
        match resp with
        | some d => { s with result := some d }
        | none => s
      else s

/-- Run a sequence of result-page actions from the mount state. -/
def runResultPage (acts : List ResultAction) : ResultPageState :=
  acts.foldl resultPageStep initResultPageState

/-- The `otp_code` (if any) that action `a` taken in state `s` sends to
`/participant/results/{id}/view`. -/
def sentOtpCode (s : ResultPageState) (a : ResultAction) : Option (List Char) :=
  match a with
  | .verify _ =>
      if s.result = none ∧ s.step = .viewResult ∧ s.otp.length = 6
      then some s.otp else none
  | _ => none

/-- Whether an action is a verification request that returned success. -/
def successfulVerify : ResultAction → Bool
  | .verify (some _) => true
  | _ => false

/-- The page renders the sensitive result data (`result_category`,
`result_notes`, `result_file_url`) exactly when `result` is non-null;
otherwise it renders only the OTP request/entry UI (`!result ? ... : ...`). -/
def rendersResultData (s : ResultPageState) : Bool :=
  s.result.isSome

/-! ## Events list filtering — `EventsPage` in src/frontend/src/app/events/page.tsx -/

/-- `interface Event` of the events list page. -/
structure EventItem where
  id : String
  name : String
  event_date : String
  event_time : String
  address : String
  available_slots : Int
  total_slots : Int
  status : String
  additional_info : String
deriving DecidableEq, Repr

/-- JavaScript `hay.toLowerCase().includes(needle.toLowerCase())`:
case-insensitive substring containment. -/
def jsIncludesLower (hay needle : String) : Bool :=
  decide ((needle.toList.map Char.toLower) <:+: (hay.toList.map Char.toLower))

/-- `filteredEvents`: keep events whose address contains the search string
(case-insensitively) and, when a date is selected (`selectedDate` truthy,
i.e. non-empty), whose `event_date` equals it. -/
def filteredEvents (events : List EventItem) (searchLocation selectedDate : String) :
    List EventItem :=
  events.filter fun e =>
    jsIncludesLower e.address searchLocation &&
    (if selectedDate = "" then true else e.event_date == selectedDate)

/-! ## My bookings — `MyBookingsPage` in src/frontend/src/app/events/page.tsx

`event_date` is only ever used through `new Date(...)` comparisons, so it is
modelled as its epoch timestamp (an `Int`); `today` below is the value of
`new Date()` after `setHours(0, 0, 0, 0)` (start of the current day) and
`now` is a bare `new Date()` (the current instant). -/

/-- The nested `interface Event` of the bookings page. -/
structure BookingEvent where
  id : String
  name : String
  event_date : Int
  event_time : String
  address : String
  total_slots : Int
  available_slots : Int
deriving DecidableEq, Repr

/-- `interface Booking`. -/
structure Booking where
  id : String
  booking_reference : String
  booking_status : String
  booked_at : String
  cancelled_at : Option String
  time_slot_start : Option String
  time_slot_end : Option String
  event : BookingEvent
deriving DecidableEq, Repr

/-- `type FilterType = 'all' | 'upcoming' | 'past' | 'cancelled'`. -/
inductive FilterType
  | all
  | upcoming
  | past
  | cancelled
deriving DecidableEq, Repr

/-- `filterBookings`: the list shown for the active filter; `today` is the
start of the current day. -/
def filterBookings (bookings : List Booking) (activeFilter : FilterType) (today : Int) :
    List Booking :=
  match activeFilter with
  | .upcoming =>
      bookings.filter fun b => today ≤ b.event.event_date && !(b.booking_status == "cancelled")
  | .past =>
      bookings.filter fun b => b.event.event_date < today && !(b.booking_status == "cancelled")
  | .cancelled =>
      bookings.filter fun b => b.booking_status == "cancelled"
  | .all => bookings

/-- `upcomingCount`: computed with `new Date()` (the current instant `now`),
not the start of the day. -/
def upcomingCount (bookings : List Booking) (now : Int) : Nat :=
  (bookings.filter fun b =>
    now ≤ b.event.event_date && !(b.booking_status == "cancelled")).length

/-- `pastCount`: likewise computed against the current instant `now`. -/
def pastCount (bookings : List Booking) (now : Int) : Nat :=
  (bookings.filter fun b =>
    b.event.event_date < now && !(b.booking_status == "cancelled")).length

/-- `cancelledCount`. -/
def cancelledCount (bookings : List Booking) : Nat :=
  (bookings.filter fun b => b.booking_status == "cancelled").length

/-- Whether the Cancel button (and QR button) is rendered for a booking:
`!isCancelled && !isPast`, with `isPast = new Date(event_date) < new Date()`. -/
def cancelRendered (b : Booking) (now : Int) : Bool :=
  !(b.booking_status == "cancelled") && !(b.event.event_date < now)

/-- The local-state update `handleCancelBooking` performs after a successful
cancel response: `setBookings(prev.map(...))` marks the matching id
cancelled and stamps `cancelled_at`; `nowIso` is `new Date().toISOString()`. -/
def applyCancelSuccess (bookings : List Booking) (bookingId : String) (nowIso : String) :
    List Booking :=
  bookings.map fun b =>
    if b.id == bookingId
    then { b with booking_status := "cancelled", cancelled_at := some nowIso }
    else b

/-- The bookings list after `handleCancelBooking` returns: unchanged when the
request failed (the catch branch only shows a toast), updated as above on
success. -/
def handleCancelBookingUpdate (bookings : List Booking) (bookingId : String)
    (ok : Bool) (nowIso : String) : List Booking :=
  if ok then applyCancelSuccess bookings bookingId nowIso else bookings

/-! ## Client storage — all page components

The only client-storage API any component calls is
`localStorage.getItem('access_token')`.  Each call site below is one entry;
a run of a component performs some sequence of operations drawn from its
call sites. -/

/-- A client-storage operation. -/
inductive StorageOp
  | getItem (key : String)
  | setItem (key : String) (value : String)
deriving DecidableEq, Repr

/-- Client storage as a key-value map. -/
def Store : Type := String → Option String

/-- Effect of one storage operation on the store (`getItem` reads only). -/
def applyStorageOp (store : Store) (op : StorageOp) : Store :=
  match op with
  | .getItem _ => store
  | .setItem k v => fun k2 => if k2 = k then some v else store k2

/-- Effect of a sequence of storage operations. -/
def applyStorageOps (store : Store) (ops : List StorageOp) : Store :=
  ops.foldl applyStorageOp store

/-- `EventBookingPage` (events/[id]/page.tsx): the mount effect and
`handleBooking` each call `localStorage.getItem('access_token')`. -/
def eventBookingPageStorageOps : List StorageOp :=
  [.getItem "access_token", .getItem "access_token"]

/-- `EventsPage` (events/page.tsx): the mount effect and `fetchEvents`. -/
def eventsPageStorageOps : List StorageOp :=
  [.getItem "access_token", .getItem "access_token"]

/-- `MyBookingsPage` (events/page.tsx): `fetchBookings` and
`handleCancelBooking`. -/
def myBookingsPageStorageOps : List StorageOp :=
  [.getItem "access_token", .getItem "access_token"]

/-- `ParticipantDashboardPage` (events/page.tsx): `fetchDashboardData`. -/
def participantDashboardStorageOps : List StorageOp :=
  [.getItem "access_token"]

/-- `ViewResultPage` (results/[id]/page.tsx): `handleRequestOTP` and
`handleVerifyOTP`. -/
def viewResultPageStorageOps : List StorageOp :=
  [.getItem "access_token", .getItem "access_token"]

/-- `MyResultsPage` (results/[id]/page.tsx): `fetchResults`. -/
def myResultsPageStorageOps : List StorageOp :=
  [.getItem "access_token"]

/-- `AdminEventsPage` (src/unnamed/part_000): `fetchEvents` and
`handleDelete`. -/
def adminEventsPageStorageOps : List StorageOp :=
  [.getItem "access_token", .getItem "access_token"]

/-- `AdminDashboardPage` (src/unnamed/part_001): `fetchDashboardData`. -/
def adminDashboardStorageOps : List StorageOp :=
  [.getItem "access_token"]

/-- Every client-storage call site across the repository's page components. -/
def allStorageOps : List StorageOp :=
  eventBookingPageStorageOps ++ eventsPageStorageOps ++ myBookingsPageStorageOps ++
  participantDashboardStorageOps ++ viewResultPageStorageOps ++ myResultsPageStorageOps ++
  adminEventsPageStorageOps ++ adminDashboardStorageOps

/-! ## Network call ordering — mount effects

`fetchEventAndTimeSlots` (events/[id]/page.tsx) and the admin dashboard's
`fetchDashboardData` (src/unnamed/part_001) issue their requests with
`await` between them; a request whose `fetch` rejects aborts the function
through the `catch`.  A trace records the issue of each request and the
receipt of each response, in program order; the `Bool` flags record which
fetches resolve. -/

/-- The distinct endpoints the two mount effects call. -/
inductive ApiCall
  | eventDetails
  | eventTimeSlots
  | adminStats
  | adminActivity
  | adminTrends
deriving DecidableEq, Repr

/-- A network event: a request is issued, or its response is received. -/
inductive NetEvent
  | request (c : ApiCall)
  | response (c : ApiCall)
deriving DecidableEq, Repr

/-- Trace of `fetchEventAndTimeSlots`: fetch the event details, and only
after `await`ing that response fetch the time slots. -/
def fetchEventAndTimeSlotsTrace (eventOk slotsOk : Bool) : List NetEvent :=
  if eventOk then
    [.request .eventDetails, .response .eventDetails] ++
    (if slotsOk then [.request .eventTimeSlots, .response .eventTimeSlots]
     else [.request .eventTimeSlots])
  else [.request .eventDetails]

/-- Trace of the admin dashboard's `fetchDashboardData`: stats, then recent
activity, then booking trends, each `await`ed before the next. -/
def fetchDashboardDataTrace (statsOk activityOk trendsOk : Bool) : List NetEvent :=
  if statsOk then
    [.request .adminStats, .response .adminStats] ++
    (if activityOk then
      [.request .adminActivity, .response .adminActivity] ++
      (if trendsOk then [.request .adminTrends, .response .adminTrends]
       else [.request .adminTrends])
     else [.request .adminActivity])
  else [.request .adminStats]

/-- A trace is sequential when every request is issued while no other
request is outstanding (`n` counts outstanding requests). -/
def sequentialFrom (n : Nat) : List NetEvent → Bool
  | [] => true
  | .request _ :: rest => (n == 0) && sequentialFrom (n + 1) rest
  | .response _ :: rest => sequentialFrom (n - 1) rest

/-- Scan helper: `seen` records whether `response u` has occurred yet. -/
def requestOnlyAfterResponseAux (u v : ApiCall) (seen : Bool) : List NetEvent → Bool
  | [] => true
  | .response w :: rest => requestOnlyAfterResponseAux u v (seen || w == u) rest
  | .request w :: rest => (!(w == v) || seen) && requestOnlyAfterResponseAux u v seen rest

/-- Every `request v` in the trace occurs after a `response u`. -/
def requestOnlyAfterResponse (u v : ApiCall) (tr : List NetEvent) : Bool :=
  requestOnlyAfterResponseAux u v false tr

/-! ## Sample values used by the concrete witnesses and counterexamples -/

/-- A time slot with free capacity. -/
def sampleSlot : TimeSlot := { start := "09:00", stop := "10:00", slots := 5, available := 3 }

/-- A fully booked time slot. -/
def sampleFullSlot : TimeSlot := { start := "10:00", stop := "11:00", slots := 5, available := 0 }

/-- Mount state of the wizard for a logged-in participant viewing an event
with time slots. -/
def sampleWizardStart : WizardState :=
  initWizardState true (some "participant") false 4 true [sampleSlot, sampleFullSlot]

/-- Mount state of the wizard for an event whose time-slot fetch reported
`has_time_slots = false`. -/
def sampleWizardStartNoSlots : WizardState :=
  initWizardState true (some "participant") false 4 false []

/-- A complete pass through the wizard up to the confirmation step. -/
def sampleWizardTrace : List WizardAction :=
  [.continueDetails, .setAge true, .setMenstruating false, .setHysterectomy false,
   .setHpv false, .continueEligibility, .selectTimeSlot sampleSlot, .continueTimeSlot,
   .setAcceptedTerms true]

/-- For the no-time-slot event: answer all four questions on the eligibility
step. -/
def sampleNoSlotsTrace : List WizardAction :=
  [.continueDetails, .setAge true, .setMenstruating false, .setHysterectomy false, .setHpv false]

/-- A sample event for the events-list page. -/
def sampleEvent : EventItem :=
  { id := "e1", name := "Community Screening", event_date := "2026-10-11",
    event_time := "09:00", address := "Kuala Lumpur", available_slots := 3, total_slots := 5,
    status := "published", additional_info := "" }

/-- A sample event nested in a booking; `event_date = 5` (epoch model). -/
def sampleBookingEvent : BookingEvent :=
  { id := "e1", name := "Community Screening", event_date := 5, event_time := "09:00",
    address := "Kuala Lumpur", total_slots := 5, available_slots := 3 }

/-- A confirmed booking for that event. -/
def sampleBooking : Booking :=
  { id := "b1", booking_reference := "ROSE-001", booking_status := "confirmed",
    booked_at := "2026-10-01T08:00:00Z", cancelled_at := none, time_slot_start := none,
    time_slot_end := none, event := sampleBookingEvent }

/-- A sample payload of a successful result-view response. -/
def sampleResultDetail : ResultDetail :=
  { result_category := "Normal", result_notes := none,
    result_file_url := none, event_name := "Community Screening", event_date := "2026-10-11" }

/-- An ISO timestamp used for a sample cancellation. -/
def sampleCancelIso : String := "2026-10-11T00:00:10Z"

/-- The sample booking after a successful client-side cancellation. -/
def sampleBookingCancelled : Booking :=
  { sampleBooking with
    booking_status := "cancelled"
    cancelled_at := some sampleCancelIso }

/-- The wizard state reached on the no-time-slot event after answering all
four eligibility questions: still on the eligibility step. -/
def sampleNoSlotsEligState : WizardState :=
  runWizard sampleWizardStartNoSlots sampleNoSlotsTrace

/-- The wizard state reached after answering all four eligibility questions
with answers that fail the eligibility criteria (age out of range). -/
def sampleIneligibleState : WizardState :=
  runWizard sampleWizardStart
    [.continueDetails, .setAge false, .setMenstruating false, .setHysterectomy false,
     .setHpv false]

/-- The booking request produced by the sample wizard pass. -/
def sampleBookingRequest : BookingRequest :=
  { event_id := "ev1", time_slot_start := some "09:00", time_slot_end := some "10:00" }

/-! # Theorems -/

/-- A selected time slot always comes from the fetched list and had free
capacity when it was selected. -/
def selInv (s : WizardState) : Prop :=
  ∀ t, s.selectedTimeSlot = some t → t ∈ s.timeSlots ∧ 0 < t.available

theorem wizardStep_selInv (s : WizardState) (a : WizardAction) (h : selInv s) :
    selInv (wizardStep s a) := by
  cases a
  case selectTimeSlot slot =>
    simp only [wizardStep]
    split_ifs with hg
    · intro t ht
      obtain rfl : slot = t := Option.some.inj ht
      exact ⟨hg.2.2.1, hg.2.2.2⟩
    · exact h
  all_goals (simp only [wizardStep]; split_ifs <;> exact h)

theorem runWizard_selInv (s : WizardState) (acts : List WizardAction) (h : selInv s) :
    selInv (runWizard s acts) := by
  unfold runWizard
  induction acts generalizing s with
  | nil => exact h
  | cons a rest ih => exact ih (wizardStep s a) (wizardStep_selInv s a h)

theorem initWizardState_selInv (tok : Bool) (role : Option String) (booked : Bool)
    (avail : Int) (hts : Bool) (slots : List TimeSlot) :
    selInv (initWizardState tok role booked avail hts slots) := by
  intro t ht
  simp [initWizardState] at ht

theorem wizard_leave_timeSlot_forward (s2 : WizardState) (a2 : WizardAction)
    (h1 : s2.currentStep = .timeSlot)
    (h2 : (wizardStep s2 a2).currentStep = .confirmation) :
    s2.selectedTimeSlot.isSome = true := by
  cases a2 <;> simp only [wizardStep] at h2 <;> split_ifs at h2 <;> simp_all

/-- C1 counterexample: on an event whose time-slot fetch reports no time
slots, pressing Continue on the eligibility step moves the wizard directly
to the confirmation step, which is not adjacent to eligibility in the
five-step sequence `details → eligibility → time-slot → confirmation →
success`. -/
theorem C1_linear_sequence_counterexample :
    sampleNoSlotsEligState.currentStep = BookingStep.eligibility ∧
    (wizardStep sampleNoSlotsEligState .continueEligibility).currentStep =
      BookingStep.confirmation ∧
    adjacentFull BookingStep.eligibility BookingStep.confirmation = false := by
  decide

/-- C1 (amended): every change of the wizard's current step moves to an
adjacent step of the effective linear sequence — the full five-step sequence
when the event has time slots, and the four-step sequence with the time-slot
step skipped when it does not — and no step outside the five-step sequence
is ever reached (the step type has no other values). -/
theorem C1_wizard_adjacency_amended (s : WizardState) (a : WizardAction)
    (h : (wizardStep s a).currentStep ≠ s.currentStep) :
    (s.hasTimeSlots = true →
      adjacentFull s.currentStep (wizardStep s a).currentStep = true) ∧
    (s.hasTimeSlots = false →
      adjacentNoSlots s.currentStep (wizardStep s a).currentStep = true) := by
  cases a <;>
    simp only [wizardStep] at h ⊢ <;>
    split_ifs at h ⊢ <;>
    simp_all [adjacentFull, adjacentNoSlots, stepIdx, stepIdxNoSlots]

/-- C1 witness: the first Continue click moves details → eligibility, an
adjacent move in the five-step sequence. -/
theorem C1_wizard_adjacency_amended_witness :
    (wizardStep sampleWizardStart .continueDetails).currentStep ≠
      sampleWizardStart.currentStep ∧
    ((sampleWizardStart.hasTimeSlots = true →
      adjacentFull sampleWizardStart.currentStep
        (wizardStep sampleWizardStart .continueDetails).currentStep = true) ∧
    (sampleWizardStart.hasTimeSlots = false →
      adjacentNoSlots sampleWizardStart.currentStep
        (wizardStep sampleWizardStart .continueDetails).currentStep = true)) := by
  have h : (wizardStep sampleWizardStart .continueDetails).currentStep ≠
      sampleWizardStart.currentStep := by decide
  exact ⟨h, C1_wizard_adjacency_amended sampleWizardStart .continueDetails h⟩

/-- C2: on the eligibility step, the wizard advances past the step exactly
when all four answers are non-null (`canProceedFromEligibility`); any
forward move out of the step requires it; and ineligible answers do not
block advancing — they only render the warning note. -/
theorem C2_eligibility_gating (s : WizardState) (h : s.currentStep = .eligibility) :
    ((wizardStep s .continueEligibility).currentStep ≠ .eligibility ↔
      canProceedFromEligibility s.eligibility = true) ∧
    (∀ a, stepIdx BookingStep.eligibility < stepIdx (wizardStep s a).currentStep →
      canProceedFromEligibility s.eligibility = true) ∧
    (canProceedFromEligibility s.eligibility = true → isEligible s.eligibility = false →
      showsIneligibilityNote s.eligibility = true ∧
      (wizardStep s .continueEligibility).currentStep ≠ .eligibility) := by
  refine ⟨?_, ?_, ?_⟩
  · simp only [wizardStep]
    split_ifs with hg hts
    · exact ⟨fun _ => hg.2, fun _ => by simp⟩
    · exact ⟨fun _ => hg.2, fun _ => by simp⟩
    · simp [h] at hg
      simp [h, hg]
  · intro a hlt
    cases a <;> simp only [wizardStep] at hlt <;> split_ifs at hlt <;>
      simp_all [stepIdx]
  · intro hcp hie
    refine ⟨by simp [showsIneligibilityNote, hcp, hie], ?_⟩
    simp only [wizardStep]
    split_ifs with hg hts
    · simp
    · simp
    · exact (hg ⟨h, hcp⟩).elim

/-- C2 witness: with all four questions answered but the answers failing the
criteria, the warning note is shown and Continue still advances. -/
theorem C2_eligibility_gating_witness :
    sampleIneligibleState.currentStep = BookingStep.eligibility ∧
    canProceedFromEligibility sampleIneligibleState.eligibility = true ∧
    isEligible sampleIneligibleState.eligibility = false ∧
    showsIneligibilityNote sampleIneligibleState.eligibility = true ∧
    (wizardStep sampleIneligibleState .continueEligibility).currentStep ≠
      BookingStep.eligibility := by
  have h : sampleIneligibleState.currentStep = BookingStep.eligibility := by decide
  have hcp : canProceedFromEligibility sampleIneligibleState.eligibility = true := by decide
  have hie : isEligible sampleIneligibleState.eligibility = false := by decide
  obtain ⟨hnote, hadv⟩ := (C2_eligibility_gating sampleIneligibleState h).2.2 hcp hie
  exact ⟨h, hcp, hie, hnote, hadv⟩

/-- C8: every booking-creation request the wizard issues was sent with the
terms checkbox accepted; when the event has time slots and a slot is
selected the request body carries that slot's start and end; any selected
slot came from the fetched list with a positive available count (full slots
are not selectable); and the time-slot step can only be left forward to
confirmation with a slot selected. -/
theorem C8_booking_request_invariants (tok : Bool) (role : Option String) (booked : Bool)
    (avail : Int) (hts : Bool) (slots : List TimeSlot) (acts : List WizardAction)
    (eventId : String) (a : WizardAction) (r : BookingRequest)
    (hr : bookingRequestOf eventId
      (runWizard (initWizardState tok role booked avail hts slots) acts) a = some r) :
    (runWizard (initWizardState tok role booked avail hts slots) acts).acceptedTerms = true ∧
    (∀ t, (runWizard (initWizardState tok role booked avail hts slots)
        acts).selectedTimeSlot = some t →
      t ∈ (runWizard (initWizardState tok role booked avail hts slots) acts).timeSlots ∧
      0 < t.available ∧
      ((runWizard (initWizardState tok role booked avail hts slots)
          acts).hasTimeSlots = true →
        r.time_slot_start = some t.start ∧ r.time_slot_end = some t.stop)) ∧
    (∀ (s2 : WizardState) (a2 : WizardAction), s2.currentStep = .timeSlot →
      (wizardStep s2 a2).currentStep = .confirmation →
      s2.selectedTimeSlot.isSome = true) := by
  have hinv : selInv (runWizard (initWizardState tok role booked avail hts slots) acts) :=
    runWizard_selInv _ acts (initWizardState_selInv tok role booked avail hts slots)
  cases a with
  | submitBooking ok ref =>
      simp only [bookingRequestOf] at hr
      split_ifs at hr with hg
      · obtain ⟨-, hat, -⟩ := hg
        have hs := Option.some.inj hr
        refine ⟨hat, ?_, wizard_leave_timeSlot_forward⟩
        intro t ht
        have hsel := hinv t ht
        refine ⟨hsel.1, hsel.2, fun hhts => ?_⟩
        rw [← hs]
        simp [mkBookingRequestBody, hhts, ht]
  | continueDetails => simp [bookingRequestOf] at hr
  | setAge b => simp [bookingRequestOf] at hr
  | setMenstruating b => simp [bookingRequestOf] at hr
  | setHysterectomy b => simp [bookingRequestOf] at hr
  | setHpv b => simp [bookingRequestOf] at hr
  | backToDetails => simp [bookingRequestOf] at hr
  | continueEligibility => simp [bookingRequestOf] at hr
  | backToEligibility => simp [bookingRequestOf] at hr
  | selectTimeSlot slot => simp [bookingRequestOf] at hr
  | continueTimeSlot => simp [bookingRequestOf] at hr
  | backFromConfirmation => simp [bookingRequestOf] at hr
  | setAcceptedTerms b => simp [bookingRequestOf] at hr

/-- C8 witness: the sample pass through the wizard submits a request carrying
the selected slot's bounds, with the terms accepted. -/
theorem C8_booking_request_invariants_witness :
    bookingRequestOf "ev1"
      (runWizard (initWizardState true (some "participant") false 4 true
        [sampleSlot, sampleFullSlot]) sampleWizardTrace)
      (.submitBooking true "ROSE-123") = some sampleBookingRequest ∧
    (runWizard (initWizardState true (some "participant") false 4 true
      [sampleSlot, sampleFullSlot]) sampleWizardTrace).acceptedTerms = true := by
  have h : bookingRequestOf "ev1"
      (runWizard (initWizardState true (some "participant") false 4 true
        [sampleSlot, sampleFullSlot]) sampleWizardTrace)
      (.submitBooking true "ROSE-123") = some sampleBookingRequest := by decide
  refine ⟨h, ?_⟩
  exact (C8_booking_request_invariants true (some "participant") false 4 true
    [sampleSlot, sampleFullSlot] sampleWizardTrace "ev1" (.submitBooking true "ROSE-123")
    sampleBookingRequest h).1

/-- Invariant of the OTP field: at most six characters, all decimal digits. -/
def otpInv (s : ResultPageState) : Prop :=
  s.otp.length ≤ 6 ∧ ∀ c ∈ s.otp, c.isDigit = true

theorem resultPageStep_result_none (s : ResultPageState) (a : ResultAction)
    (hs : s.result = none) (ha : successfulVerify a = false) :
    (resultPageStep s a).result = none := by
  cases a with
  | request resp => cases resp <;> simp [resultPageStep, hs]
  | typeOtp input =>
      simp only [resultPageStep]
      split_ifs <;> exact hs
  | verify resp =>
      cases resp with
      | some d => simp [successfulVerify] at ha
      | none =>
          simp only [resultPageStep]
          split_ifs <;> exact hs

theorem foldl_resultPageStep_result_none (acts : List ResultAction) (s : ResultPageState)
    (hs : s.result = none) (h : ∀ a ∈ acts, successfulVerify a = false) :
    (acts.foldl resultPageStep s).result = none := by
  induction acts generalizing s with
  | nil => exact hs
  | cons a rest ih =>
      exact ih (resultPageStep s a)
        (resultPageStep_result_none s a hs (h a (List.mem_cons_self a rest)))
        (fun a2 ha2 => h a2 (List.mem_cons_of_mem a ha2))

theorem resultPageStep_otpInv (s : ResultPageState) (a : ResultAction)
    (h : otpInv s) : otpInv (resultPageStep s a) := by
  cases a with
  | request resp =>
      cases resp <;> simp only [resultPageStep] <;> split_ifs <;> exact h
  | typeOtp input =>
      simp only [resultPageStep]
      split_ifs
      · refine ⟨le_trans (List.length_filter_le _ _) ?_, fun c hc => ?_⟩
        · exact List.length_take_le 6 input
        · exact (List.mem_filter.mp hc).2
      · exact h
  | verify resp =>
      cases resp <;> simp only [resultPageStep] <;> split_ifs <;> exact h

theorem runResultPage_otpInv (acts : List ResultAction) : otpInv (runResultPage acts) := by
  unfold runResultPage
  have h0 : otpInv initResultPageState := by
    refine ⟨by simp [initResultPageState], by simp [initResultPageState]⟩
  generalize initResultPageState = s at h0 ⊢
  induction acts generalizing s with
  | nil => exact h0
  | cons a rest ih => exact ih (resultPageStep s a) (resultPageStep_otpInv s a h0)

/-- C3: the sensitive result data is rendered only after a verification
request to `/participant/results/{id}/view` has returned success, and in
every run of the result page in which no verification response is
successful, `result` remains null and only the OTP request/entry UI is
shown. -/
theorem C3_otp_gates_result (acts : List ResultAction) :
    (rendersResultData (runResultPage acts) = true → ∃ a ∈ acts, successfulVerify a = true) ∧
    ((∀ a ∈ acts, successfulVerify a = false) →
      (runResultPage acts).result = none ∧ rendersResultData (runResultPage acts) = false) := by
  have hmain : (∀ a ∈ acts, successfulVerify a = false) →
      (runResultPage acts).result = none := fun h =>
    foldl_resultPageStep_result_none acts initResultPageState rfl h
  constructor
  · intro hr
    by_contra hex
    push_neg at hex
    have h : ∀ a ∈ acts, successfulVerify a = false := by
      intro a ha
      have := hex a ha
      simpa using this
    have h0 := hmain h
    rw [rendersResultData, h0] at hr
    simp at hr
  · intro h
    have h0 := hmain h
    exact ⟨h0, by rw [rendersResultData, h0]; rfl⟩

/-- C3 witness: a run that requests an OTP, types a code, and submits it but
receives a failure response never exposes the result. -/
theorem C3_otp_gates_result_witness :
    (∀ a ∈ [ResultAction.request (some "+60123"), .typeOtp "123456".toList, .verify none],
      successfulVerify a = false) ∧
    (runResultPage
      [.request (some "+60123"), .typeOtp "123456".toList, .verify none]).result = none := by
  refine ⟨by decide, ?_⟩
  exact ((C3_otp_gates_result
    [.request (some "+60123"), .typeOtp "123456".toList, .verify none]).2 (by decide)).1

/-- C9: every `otp_code` the result page sends to the verification endpoint
is a string of exactly six decimal digits: the input handler strips
non-digits, the field caps the length at six, and the submit button is
disabled unless the stored code has length exactly six. -/
theorem C9_otp_code_wellformed (acts : List ResultAction) (a : ResultAction) (code : List Char)
    (h : sentOtpCode (runResultPage acts) a = some code) :
    code.length = 6 ∧ ∀ c ∈ code, c.isDigit = true := by
  have hinv := runResultPage_otpInv acts
  cases a with
  | request resp => simp [sentOtpCode] at h
  | typeOtp input => simp [sentOtpCode] at h
  | verify resp =>
      unfold sentOtpCode at h
      split_ifs at h with hg
      obtain ⟨-, -, hlen⟩ := hg
      obtain rfl : (runResultPage acts).otp = code := Option.some.inj h
      exact ⟨hlen, hinv.2⟩

/-- C9 witness: after requesting an OTP and typing `123456`, submitting
sends exactly that six-digit code. -/
theorem C9_otp_code_wellformed_witness :
    sentOtpCode (runResultPage [.request (some "+60123"), .typeOtp "123456".toList])
      (.verify none) = some "123456".toList ∧
    ("123456".toList.length = 6 ∧ ∀ c ∈ "123456".toList, c.isDigit = true) := by
  have h : sentOtpCode (runResultPage [.request (some "+60123"), .typeOtp "123456".toList])
      (.verify none) = some "123456".toList := by decide
  exact ⟨h, C9_otp_code_wellformed _ _ _ h⟩

/-- C4: the displayed events list contains exactly the fetched events whose
address contains the search string case-insensitively and, when a date is
selected, whose `event_date` equals it; with an empty search string and no
selected date the displayed list is the fetched list itself (in order). -/
theorem C4_filtered_events (events : List EventItem) (searchLocation selectedDate : String)
    (e : EventItem) :
    (e ∈ filteredEvents events searchLocation selectedDate ↔
      e ∈ events ∧ jsIncludesLower e.address searchLocation = true ∧
        (selectedDate ≠ "" → e.event_date = selectedDate)) ∧
    filteredEvents events "" "" = events := by
  constructor
  · simp only [filteredEvents, List.mem_filter, Bool.and_eq_true, and_congr_right_iff]
    intro _
    by_cases hd : selectedDate = "" <;> simp [hd]
  · refine List.filter_eq_self.mpr fun e2 _ => ?_
    have h1 : jsIncludesLower e2.address "" = true := by
      simp only [jsIncludesLower, decide_eq_true_eq]
      exact List.nil_infix
    simp [h1]

/-- C4 witness: with no filters the sample list is displayed unchanged, and
the sample event is displayed under a matching search and date. -/
theorem C4_filtered_events_witness :
    filteredEvents [sampleEvent] "" "" = [sampleEvent] ∧
    sampleEvent ∈ filteredEvents [sampleEvent] "LUMP" "2026-10-11" := by
  constructor
  · exact (C4_filtered_events [sampleEvent] "" "" sampleEvent).2
  · exact (C4_filtered_events [sampleEvent] "LUMP" "2026-10-11" sampleEvent).1.mpr
      ⟨by decide, by decide, fun _ => by decide⟩

/-- C6: every client-storage operation any page component performs is a read
of the key `'access_token'`; consequently no run of storage operations drawn
from the components' call sites ever changes client storage (nothing — in
particular no entity value — is ever written). -/
theorem C6_no_local_persistence :
    (∀ op ∈ allStorageOps, op = StorageOp.getItem "access_token") ∧
    (∀ (store : Store) (ops : List StorageOp),
      (∀ op ∈ ops, op ∈ allStorageOps) → applyStorageOps store ops = store) := by
  have hall : ∀ op ∈ allStorageOps, op = StorageOp.getItem "access_token" := by decide
  refine ⟨hall, fun store ops h => ?_⟩
  induction ops generalizing store with
  | nil => rfl
  | cons op rest ih =>
      have hop : op = StorageOp.getItem "access_token" :=
        hall op (h op (List.mem_cons_self op rest))
      have hstep : applyStorageOp store op = store := by subst hop; rfl
      calc applyStorageOps store (op :: rest)
          = applyStorageOps (applyStorageOp store op) rest := rfl
        _ = applyStorageOps store rest := by rw [hstep]
        _ = store := ih store (fun o ho => h o (List.mem_cons_of_mem op ho))

/-- C6 witness: running every call site of every component over an empty
store leaves the store unchanged. -/
theorem C6_no_local_persistence_witness :
    applyStorageOps (fun _ => none) allStorageOps = (fun _ => none) ∧
    StorageOp.getItem "access_token" ∈ allStorageOps := by
  exact ⟨C6_no_local_persistence.2 (fun _ => none) allStorageOps (fun _ h => h), by decide⟩

/-- C7: the mount-time network calls are sequential.  On the event-booking
page the time-slots request is issued only after the event-details response;
on the admin dashboard the stats, recent-activity and booking-trends
requests each wait for the previous response; in every such trace no
request is issued while another is outstanding. -/
theorem C7_sequential_network_calls :
    (∀ eventOk slotsOk : Bool,
      sequentialFrom 0 (fetchEventAndTimeSlotsTrace eventOk slotsOk) = true ∧
      requestOnlyAfterResponse .eventDetails .eventTimeSlots
        (fetchEventAndTimeSlotsTrace eventOk slotsOk) = true) ∧
    (∀ statsOk activityOk trendsOk : Bool,
      sequentialFrom 0 (fetchDashboardDataTrace statsOk activityOk trendsOk) = true ∧
      requestOnlyAfterResponse .adminStats .adminActivity
        (fetchDashboardDataTrace statsOk activityOk trendsOk) = true ∧
      requestOnlyAfterResponse .adminActivity .adminTrends
        (fetchDashboardDataTrace statsOk activityOk trendsOk) = true) := by
  decide

/-- C5 counterexample: the filter list is computed against the start of the
current day but the tab counts against the current instant.  With start of
day `0`, current instant `10`, and a non-cancelled booking whose event is at
timestamp `5` (i.e. earlier today), the Upcoming tab displays one booking
but its count reads `0`, and the Past tab displays none but its count reads
`1` — so the displayed count does not equal the number displayed. -/
theorem C5_counterexample :
    (filterBookings [sampleBooking] .upcoming 0).length = 1 ∧
    upcomingCount [sampleBooking] 10 = 0 ∧
    (filterBookings [sampleBooking] .past 0).length = 0 ∧
    pastCount [sampleBooking] 10 = 1 ∧
    (0 : Int) ≤ 10 ∧ sampleBooking.booking_status ≠ "cancelled" := by
  decide

/-- C5 (amended): the four filters display exactly the claimed bookings
(upcoming/past measured against the start of the current day), and the All
and Cancelled tab counts always equal the number displayed; the Upcoming and
Past tab counts are computed against the current instant instead of the
start of the day, so they equal the number displayed provided no
non-cancelled booking's event date falls between the start of the day and
the current instant. -/
theorem C5_bookings_filter_amended (bookings : List Booking) (today now : Int) (b : Booking) :
    (b ∈ filterBookings bookings .upcoming today ↔
      b ∈ bookings ∧ today ≤ b.event.event_date ∧ ¬ b.booking_status = "cancelled") ∧
    (b ∈ filterBookings bookings .past today ↔
      b ∈ bookings ∧ b.event.event_date < today ∧ ¬ b.booking_status = "cancelled") ∧
    (b ∈ filterBookings bookings .cancelled today ↔
      b ∈ bookings ∧ b.booking_status = "cancelled") ∧
    filterBookings bookings .all today = bookings ∧
    cancelledCount bookings = (filterBookings bookings .cancelled today).length ∧
    bookings.length = (filterBookings bookings .all today).length ∧
    (today ≤ now →
      (∀ b2 ∈ bookings, ¬ b2.booking_status = "cancelled" →
        ¬(today ≤ b2.event.event_date ∧ b2.event.event_date < now)) →
      upcomingCount bookings now = (filterBookings bookings .upcoming today).length ∧
      pastCount bookings now = (filterBookings bookings .past today).length) := by
  refine ⟨?_, ?_, ?_, rfl, rfl, rfl, ?_⟩
  · simp [filterBookings, List.mem_filter, and_assoc]
  · simp [filterBookings, List.mem_filter, and_assoc]
  · simp [filterBookings, List.mem_filter]
  · intro hn hwin
    have hup :
        (bookings.filter fun b2 =>
          now ≤ b2.event.event_date && !(b2.booking_status == "cancelled")) =
        (bookings.filter fun b2 =>
          today ≤ b2.event.event_date && !(b2.booking_status == "cancelled")) := by
      refine List.filter_congr fun b2 hb2 => ?_
      by_cases hc : b2.booking_status = "cancelled"
      · simp [hc]
      · have hw := hwin b2 hb2 hc
        have : (now ≤ b2.event.event_date) ↔ (today ≤ b2.event.event_date) := by
          constructor
          · exact fun h1 => le_trans hn h1
          · intro h2
            by_contra h3
            exact hw ⟨h2, lt_of_not_le h3⟩
        simp [this]
    have hpast :
        (bookings.filter fun b2 =>
          b2.event.event_date < now && !(b2.booking_status == "cancelled")) =
        (bookings.filter fun b2 =>
          b2.event.event_date < today && !(b2.booking_status == "cancelled")) := by
      refine List.filter_congr fun b2 hb2 => ?_
      by_cases hc : b2.booking_status = "cancelled"
      · simp [hc]
      · have hw := hwin b2 hb2 hc
        have : (b2.event.event_date < now) ↔ (b2.event.event_date < today) := by
          constructor
          · intro h1
            by_contra h3
            exact hw ⟨le_of_not_lt h3, h1⟩
          · exact fun h2 => lt_of_lt_of_le h2 hn
        simp [this]
    exact ⟨congrArg List.length hup, congrArg List.length hpast⟩

/-- C5 witness: when the current instant coincides with the start of the day
(so no event date lies strictly between them), the Upcoming tab count equals
the number of bookings displayed. -/
theorem C5_bookings_filter_amended_witness :
    (0 : Int) ≤ 0 ∧
    upcomingCount [sampleBooking] 0 = (filterBookings [sampleBooking] .upcoming 0).length := by
  refine ⟨by decide, ?_⟩
  exact ((C5_bookings_filter_amended [sampleBooking] 0 0 sampleBooking).2.2.2.2.2.2
    (by decide) (by decide)).1

/-- C10: the Cancel action is rendered exactly for bookings that are neither
cancelled nor past; a failed cancel request leaves the local bookings list
unchanged; a successful one rewrites, position by position, exactly the
bookings with the given id to status `'cancelled'` with `cancelled_at`
stamped, leaving every other booking untouched. -/
theorem C10_cancel_update (bookings : List Booking) (bookingId nowIso : String)
    (now : Int) (b : Booking) :
    (cancelRendered b now = true ↔
      ¬ b.booking_status = "cancelled" ∧ ¬ b.event.event_date < now) ∧
    handleCancelBookingUpdate bookings bookingId false nowIso = bookings ∧
    (∀ i : Nat,
      (handleCancelBookingUpdate bookings bookingId true nowIso)[i]? =
        (bookings[i]?).map fun b2 =>
          if b2.id = bookingId
          then { b2 with booking_status := "cancelled", cancelled_at := some nowIso }
          else b2) := by
  refine ⟨?_, by simp [handleCancelBookingUpdate], ?_⟩
  · simp [cancelRendered, not_lt, and_comm]
  · intro i
    have hfun :
        (fun b2 : Booking =>
          if b2.id == bookingId
          then { b2 with booking_status := "cancelled", cancelled_at := some nowIso }
          else b2) =
        (fun b2 : Booking =>
          if b2.id = bookingId
          then { b2 with booking_status := "cancelled", cancelled_at := some nowIso }
          else b2) := by
      funext b2
      by_cases h : b2.id = bookingId <;> simp [h]
    simp only [handleCancelBookingUpdate, if_true, applyCancelSuccess, hfun,
      List.getElem?_map]

/-- C10 witness: the sample booking (future, confirmed) shows the Cancel
button, and a successful cancel of its id rewrites it in place. -/
theorem C10_cancel_update_witness :
    cancelRendered sampleBooking 0 = true ∧
    (handleCancelBookingUpdate [sampleBooking] "b1" true sampleCancelIso)[0]? =
      some sampleBookingCancelled := by
  constructor
  · exact (C10_cancel_update [sampleBooking] "b1" "x" 0 sampleBooking).1.mpr
      ⟨by decide, by decide⟩
  · exact ((C10_cancel_update [sampleBooking] "b1" sampleCancelIso 0
      sampleBooking).2.2 0).trans (by decide)

end Solterra
